import Mathlib

/-!
Shallow embedding of the account-linking flow of the X-engagement dashboard:
the service wrappers of src/frontend/src/services/authService.js, the modal
state machine of src/frontend/src/components/TwitterAuthModal.js, and the
linked-account cache handlers of the Settings component in
src/frontend/src/pages/Login.js.  Asynchronous service calls are embedded by
passing the outcome of the underlying HTTP exchange as an explicit argument;
a thrown JavaScript Error is an Except.error carrying the message string.
-/

namespace XEngage

/-- Result of the JavaScript expression a or-else b on strings: b when a is
null, undefined or the empty string (all falsy), a otherwise. -/
def jsOrString : Option String → String → String
  | some s, d => if s = "" then d else s
  | none, d => d

/-- Result of the JavaScript expression a or-else undefined on a string:
undefined when a is absent or empty, a otherwise. -/
def jsOrUndefined : Option String → Option String
  | some s => if s = "" then none else some s
  | none => none

/-- JavaScript template-literal interpolation of a possibly-null string:
null interpolates as the literal text "null". -/
def jsInterpolate : Option String → String
  | some s => s
  | none => "null"

/-- Outcome of one HTTP exchange as seen by the axios wrapper: a 2xx response
with parsed data, a non-2xx response whose body may carry a detail field, or
a transport failure with no response at all. -/
inductive ApiOutcome (α : Type) where
  | ok (data : α)
  | httpError (detail : Option String)
  | transportError
deriving DecidableEq

/-- Shape of every authService wrapper: on a non-ok outcome it throws a
JavaScript Error whose message is the response detail field when that is a
non-empty string, else the wrapper's fallback message. -/
def serviceResult {α : Type} (outcome : ApiOutcome α) (fallback : String) : Except String α :=
  match outcome with
  | .ok d => .ok d
  | .httpError detail => .error (jsOrString detail fallback)
  | .transportError => .error fallback

/-- Credentials object built by onSubmit in TwitterAuthModal.js from the form
data: fields username, password and two_factor_token, the last undefined when
the form field was absent or empty. -/
structure TwitterCredentials where
  username : String
  password : String
  two_factor_token : Option String
deriving DecidableEq

/-- Field list of the JSON serialization of the credentials body; a field
holding undefined is dropped by JSON serialization. -/
def credentialsJsonFields (c : TwitterCredentials) : List (String × String) :=
  [("username", c.username), ("password", c.password)] ++
    (match c.two_factor_token with
     | some t => [("two_factor_token", t)]
     | none => [])

/-- Body of an HTTP request issued by the embedded services. -/
inductive ApiBody where
  | empty
  | jsonFields (fields : List (String × String))
deriving DecidableEq

/-- One HTTP request issued by the embedded services. -/
structure ApiCall where
  method : String
  path : String
  body : ApiBody
deriving DecidableEq

/-- Response of POST /user/auth/twitter/request as read by the modal. -/
structure StartAuthResponse where
  request_id : Option String
deriving DecidableEq

/-- Embedding of authService.startTwitterAuth: the issued call together with
the resolved data or the thrown error message. -/
def startTwitterAuth (outcome : ApiOutcome StartAuthResponse) :
    ApiCall × Except String StartAuthResponse :=
  (⟨"POST", "/user/auth/twitter/request", ApiBody.empty⟩,
   serviceResult outcome "Failed to start Twitter authentication")

/-- Response of GET /user/auth/twitter/status as read by checkStatus. -/
structure StatusResponse where
  status : String
  error : Option String
deriving DecidableEq

/-- Embedding of authService.checkTwitterAuthStatus. -/
def checkTwitterAuthStatus (requestId : Option String) (outcome : ApiOutcome StatusResponse) :
    ApiCall × Except String StatusResponse :=
  (⟨"GET", "/user/auth/twitter/status/" ++ jsInterpolate requestId, ApiBody.empty⟩,
   serviceResult outcome "Failed to check Twitter authentication status")

/-- Nested account object of the LinkResult payload described by the spec. -/
structure AccountPayload where
  username : String
  displayName : String
  avatarUrl : String
deriving DecidableEq

/-- Response of POST /user/auth/twitter/authenticate as read by onSubmit and
handleTwitterSuccess: the code reads success, error and the top-level
username, display_name and profile_image_url fields; the nested account
object of the spec's LinkResult is carried along so payloads of that shape
can be evaluated too. -/
structure AuthResponse where
  success : Bool
  error : Option String
  account : Option AccountPayload
  username : Option String
  display_name : Option String
  profile_image_url : Option String
deriving DecidableEq

/-- Embedding of authService.completeTwitterAuth: POST to
/user/auth/twitter/authenticate/ followed by the interpolated request id,
with the credentials object as JSON body. -/
def completeTwitterAuth (requestId : Option String) (credentials : TwitterCredentials)
    (outcome : ApiOutcome AuthResponse) : ApiCall × Except String AuthResponse :=
  (⟨"POST", "/user/auth/twitter/authenticate/" ++ jsInterpolate requestId,
     ApiBody.jsonFields (credentialsJsonFields credentials)⟩,
   serviceResult outcome "Failed to complete Twitter authentication")

/-- Embedding of authService.removeTwitterAccount: DELETE /user/accounts/
followed by the username. -/
def removeTwitterAccount (username : String) (outcome : ApiOutcome Unit) :
    ApiCall × Except String Unit :=
  (⟨"DELETE", "/user/accounts/" ++ username, ApiBody.empty⟩,
   serviceResult outcome "Failed to remove Twitter account")

/-- A linked account as held in the Settings component's cache. -/
structure TwitterAccount where
  username : String
  display_name : String
  profile_image_url : String
  is_default : Bool
  is_active : Bool
deriving DecidableEq

/-- Embedding of authService.getTwitterAccounts; the resolved response data
may be a list or null. -/
def getTwitterAccounts (outcome : ApiOutcome (Option (List TwitterAccount))) :
    ApiCall × Except String (Option (List TwitterAccount)) :=
  (⟨"GET", "/user/twitter-accounts", ApiBody.empty⟩,
   serviceResult outcome "Failed to get Twitter accounts")

/-- Value returned by hasLinkedTwitterAccount: the JavaScript expression
accounts and-then accounts.length greater than 0 yields null when accounts is
null, a boolean otherwise. -/
inductive JsReturn where
  | jsNull
  | jsBool (b : Bool)
deriving DecidableEq

/-- Embedding of authService.hasLinkedTwitterAccount: fetches the account
list, returns the truthiness test on it, and returns false from the catch
handler when the fetch throws. -/
def hasLinkedTwitterAccount (outcome : ApiOutcome (Option (List TwitterAccount))) : JsReturn :=
  match (getTwitterAccounts outcome).2 with
  | .error _ => JsReturn.jsBool false
  | .ok none => JsReturn.jsNull
  | .ok (some accounts) => JsReturn.jsBool (decide (accounts.length > 0))

/-- Step value of the modal component, a loosely typed string in the source. -/
inductive Step where
  | initial
  | credentials
  | processing
  | success
  | error
deriving DecidableEq

/-- Component-local state of TwitterAuthModal that the flow logic touches. -/
structure ModalState where
  step : Step
  requestId : Option String
  error : Option String
deriving DecidableEq

/-- Result of running startAuth: the new component state and the HTTP calls
issued. -/
structure StartResult where
  state : ModalState
  calls : List ApiCall
deriving DecidableEq

/-- Embedding of startAuth in TwitterAuthModal.js. -/
def startAuth (s : ModalState) (outcome : ApiOutcome StartAuthResponse) : StartResult :=
  let r := startTwitterAuth outcome
  match r.2 with
  | .ok response =>
      { state := { s with
                     error := none,
                     requestId := response.request_id,
                     step := Step.credentials },
        calls := [r.1] }
  | .error msg =>
      { state := { s with
                     error := some (jsOrString (some msg) "Failed to start Twitter authentication"),
                     step := Step.error },
        calls := [r.1] }

/-- Values of the credential form as submitted. -/
structure FormData where
  username : String
  password : String
  twoFactorToken : Option String
deriving DecidableEq

/-- Result of running onSubmit: the new component state, the HTTP calls
issued, the payload passed to the onSuccess callback when it was invoked,
and whether the auto-close timeout was scheduled. -/
structure SubmitResult where
  state : ModalState
  calls : List ApiCall
  emitted : Option AuthResponse
  autoCloseScheduled : Bool
deriving DecidableEq

/-- Embedding of onSubmit in TwitterAuthModal.js. -/
def onSubmit (s : ModalState) (data : FormData) (outcome : ApiOutcome AuthResponse) : SubmitResult :=
  let s1 : ModalState := { s with error := none, step := Step.processing }
  let credentials : TwitterCredentials :=
    { username := data.username, password := data.password,
      two_factor_token := jsOrUndefined data.twoFactorToken }
  let r := completeTwitterAuth s1.requestId credentials outcome
  match r.2 with
  | .ok response =>
      if response.success then
        { state := { s1 with step := Step.success }, calls := [r.1],
          emitted := some response, autoCloseScheduled := true }
      else
        { state := { s1 with
                       error := some (jsOrString response.error "Authentication failed"),
                       step := Step.error },
          calls := [r.1], emitted := none, autoCloseScheduled := false }
  | .error msg =>
      { state := { s1 with
                     error := some (jsOrString (some msg) "Failed to authenticate with Twitter"),
                     step := Step.error },
        calls := [r.1], emitted := none, autoCloseScheduled := false }

/-- Result of running checkStatus: the new component state, whether the
polling interval is still installed, the HTTP calls issued, and the payload
passed to onSuccess when it was invoked. -/
structure StatusResult where
  state : ModalState
  pollingActive : Bool
  calls : List ApiCall
  emitted : Option StatusResponse
deriving DecidableEq

/-- Embedding of checkStatus in TwitterAuthModal.js. -/
def checkStatus (s : ModalState) (pollingActive : Bool) (outcome : ApiOutcome StatusResponse) :
    StatusResult :=
  let r := checkTwitterAuthStatus s.requestId outcome
  match r.2 with
  | .ok response =>
      if response.status = "completed" then
        { state := { s with step := Step.success }, pollingActive := false,
          calls := [r.1], emitted := some response }
      else if response.status = "failed" then
        { state := { s with
                       error := some (jsOrString response.error "Authentication failed"),
                       step := Step.error },
          pollingActive := false, calls := [r.1], emitted := none }
      else
        { state := s, pollingActive := pollingActive, calls := [r.1], emitted := none }
  | .error _ =>
      { state := s, pollingActive := pollingActive, calls := [r.1], emitted := none }

/-- Embedding of handleSetDefaultAccount in the Settings component of
Login.js: every cached account's is_default is set to the result of
comparing its username with the argument. -/
def handleSetDefaultAccount (accounts : List TwitterAccount) (username : String) :
    List TwitterAccount :=
  accounts.map (fun account => { account with is_default := account.username == username })

/-- Result of running handleRemoveTwitterAccount: the new cache and the HTTP
calls issued. -/
structure RemoveResult where
  accounts : List TwitterAccount
  calls : List ApiCall
deriving DecidableEq

/-- Embedding of handleRemoveTwitterAccount in the Settings component:
nothing happens when the confirm dialog was declined; otherwise the DELETE
call is awaited and the local filter is applied only when it resolved. -/
def handleRemoveTwitterAccount (confirmed : Bool) (accounts : List TwitterAccount)
    (username : String) (outcome : ApiOutcome Unit) : RemoveResult :=
  if confirmed then
    let r := removeTwitterAccount username outcome
    match r.2 with
    | .ok _ =>
        { accounts := accounts.filter (fun account => account.username != username),
          calls := [r.1] }
    | .error _ => { accounts := accounts, calls := [r.1] }
  else { accounts := accounts, calls := [] }

/-- Fallback branch of handleTwitterSuccess: when the response object is
present and carries a truthy top-level username field, a synthesized account
is appended, default exactly when the cache was empty. -/
def handleTwitterSuccessFallback (response : Option AuthResponse)
    (twitterAccounts : List TwitterAccount) : List TwitterAccount :=
  match response with
  | none => twitterAccounts
  | some r =>
      match r.username with
      | none => twitterAccounts
      | some u =>
          if u = "" then twitterAccounts
          else
            twitterAccounts ++
              [{ username := u,
                 display_name := jsOrString r.display_name u,
                 profile_image_url := jsOrString r.profile_image_url
                   "https://pbs.twimg.com/profile_images/1683899100922511378/5lY42eHs_normal.jpg",
                 is_default := twitterAccounts.length == 0,
                 is_active := true }]

/-- Embedding of handleTwitterSuccess in the Settings component: the fresh
fetch result is used when it resolved with a non-empty list; when it threw,
resolved null or resolved empty, the fallback synthesis runs on the callback
payload. -/
def handleTwitterSuccess (fetchOutcome : ApiOutcome (Option (List TwitterAccount)))
    (response : Option AuthResponse) (twitterAccounts : List TwitterAccount) :
    List TwitterAccount :=
  match (getTwitterAccounts fetchOutcome).2 with
  | .ok (some accounts) =>
      if accounts.length > 0 then accounts
      else handleTwitterSuccessFallback response twitterAccounts
  | .ok none => handleTwitterSuccessFallback response twitterAccounts
  | .error _ => handleTwitterSuccessFallback response twitterAccounts

/-- A fetch outcome on which handleTwitterSuccess takes its fallback branch:
the call threw, or resolved null, or resolved an empty list. -/
def fetchFailsOrEmpty : ApiOutcome (Option (List TwitterAccount)) → Bool
  | .ok (some accounts) => accounts.length == 0
  | .ok none => true
  | .httpError _ => true
  | .transportError => true

/-- Number of cached accounts whose is_default flag is set. -/
def defaultCount (accounts : List TwitterAccount) : Nat :=
  accounts.countP (fun a => a.is_default)

/-- Invariant of the spec's data model: at most one cached account is marked
default. -/
def atMostOneDefault (accounts : List TwitterAccount) : Prop :=
  defaultCount accounts ≤ 1

instance (accounts : List TwitterAccount) : Decidable (atMostOneDefault accounts) := by
  unfold atMostOneDefault
  infer_instance

/-- Events that can reach the modal component: resolution of the startAuth
call made on opening, a submission of the credential form, a firing of the
status-poll interval, and closing the modal (the component's cleanup runs). -/
inductive Event where
  | startResolved (outcome : ApiOutcome StartAuthResponse)
  | submitForm (data : FormData) (outcome : ApiOutcome AuthResponse)
  | timerTick (outcome : ApiOutcome StatusResponse)
  | cancelClose

/-- State of one modal session: the component state, whether the modal is
open, whether the status-poll interval is installed (the source declares the
interval slot but never installs one), and whether a success auto-close
timeout is pending. -/
structure SysState where
  modal : ModalState
  isOpen : Bool
  pollingActive : Bool
  autoClosePending : Bool
deriving DecidableEq

/-- One step of the modal session: startAuth only runs from the initial step
of an open modal, the form only submits while an open modal shows the
credentials step, the poll tick only fires while the interval is installed,
and closing runs the effect cleanup, which clears the interval when one is
installed. -/
def sysStep (s : SysState) : Event → SysState × List ApiCall
  | Event.startResolved outcome =>
      if s.isOpen ∧ s.modal.step = Step.initial then
        let r := startAuth s.modal outcome
        ({ s with modal := r.state }, r.calls)
      else (s, [])
  | Event.submitForm data outcome =>
      if s.isOpen ∧ s.modal.step = Step.credentials then
        let r := onSubmit s.modal data outcome
        ({ s with
             modal := r.state,
             autoClosePending := s.autoClosePending || r.autoCloseScheduled }, r.calls)
      else (s, [])
  | Event.timerTick outcome =>
      if s.pollingActive then
        let r := checkStatus s.modal s.pollingActive outcome
        ({ s with modal := r.state, pollingActive := r.pollingActive }, r.calls)
      else (s, [])
  | Event.cancelClose => ({ s with isOpen := false, pollingActive := false }, [])

/-- Run of a modal session over a list of events, collecting every HTTP call
issued along the way. -/
def sysRun (s : SysState) : List Event → SysState × List ApiCall
  | [] => (s, [])
  | e :: es =>
      let r := sysStep s e
      let rest := sysRun r.1 es
      (rest.1, r.2 ++ rest.2)

/-- Component state of the modal before anything ran: initial step, no
request id, no error message. -/
def initialModalState : ModalState :=
  { step := Step.initial, requestId := none, error := none }

/-- State of a freshly opened modal: initial step, no request id, no error,
no interval, no pending auto-close. -/
def initialSysState : SysState :=
  { modal := initialModalState,
    isOpen := true, pollingActive := false, autoClosePending := false }

/-- Test of whether the string s begins with the text p, computed on the
character lists. -/
def strStartsWith (s p : String) : Bool :=
  s.data.take p.data.length == p.data

/-- Recognizer of the HTTP calls belonging to submit and pollStatus: the
authenticate POST and the status GET. -/
def submitOrPollCall (c : ApiCall) : Bool :=
  strStartsWith c.path "/user/auth/twitter/authenticate/" ||
    strStartsWith c.path "/user/auth/twitter/status/"

/-- Modal state reached after startAuth resolved with request id abc123. -/
def abcState : ModalState :=
  (startAuth { step := Step.initial, requestId := none, error := none }
    (ApiOutcome.ok { request_id := some "abc123" })).state

/-- Form data used by the concrete scenarios of the spec. -/
def aliceForm : FormData :=
  { username := "alice", password := "pw", twoFactorToken := none }

/-- LinkResult payload of the spec's success scenario, with the account data
in the nested account object as the spec's data model describes it. -/
def aliceNestedResponse : AuthResponse :=
  { success := true, error := none,
    account := some { username := "alice", displayName := "Alice", avatarUrl := "http://x/a.png" },
    username := none, display_name := none, profile_image_url := none }

/-- Success payload carrying the account data in top-level fields, the shape
handleTwitterSuccess actually reads. -/
def aliceFlatResponse : AuthResponse :=
  { success := true, error := none, account := none,
    username := some "alice", display_name := some "Alice",
    profile_image_url := some "http://x/a.png" }

/-- Rejection payload of the spec's failure scenario: the service resolves
with success false and the error text bad credentials. -/
def badCredentialsResponse : AuthResponse :=
  { success := false, error := some "bad credentials", account := none,
    username := none, display_name := none, profile_image_url := none }

/-- Cached account for alice holding the default flag. -/
def aliceAcct : TwitterAccount :=
  { username := "alice", display_name := "Alice", profile_image_url := "http://x/a.png",
    is_default := true, is_active := true }

/-- Cached account for carol without the default flag. -/
def carolAcct : TwitterAccount :=
  { username := "carol", display_name := "Carol", profile_image_url := "http://x/c.png",
    is_default := false, is_active := true }

/-- Path of the complete-link endpoint exactly as the spec's interface table
spells it. -/
def specCompleteLinkPath (request_id : String) : String :=
  "/user/auth/external/authenticate/" ++ request_id

/-- Field list of the complete-link request body exactly as the spec's
interface table spells it, the second factor omitted when absent. -/
def specCredentialBodyFields (identifier secret : String) (second_factor : Option String) :
    List (String × String) :=
  [("identifier", identifier), ("secret", secret)] ++
    (match second_factor with
     | some t => [("second_factor", t)]
     | none => [])

/-- Claim C1 counterexample: onSubmit invoked from the initial state, where
no request id is stored, does issue a network call, the authenticate POST
with the literal text null interpolated into the path, instead of failing
with an InvalidState condition and issuing no call. -/
theorem C1_counterexample :
    (onSubmit initialModalState aliceForm ApiOutcome.transportError).calls ≠ [] ∧
    (onSubmit initialModalState aliceForm ApiOutcome.transportError).calls.map ApiCall.path =
      ["/user/auth/twitter/authenticate/null"] := by
  refine ⟨?_, rfl⟩
  intro h
  simp [onSubmit, completeTwitterAuth, serviceResult] at h

/-- Claim C1 as amended: onSubmit called while the state is initial does not
fail with an InvalidState condition; it always issues exactly one
authenticate POST, with the literal text null standing in for the missing
request id, and then transitions to success or to error according to the
service outcome. -/
theorem C1_submit_from_initial (data : FormData) (outcome : ApiOutcome AuthResponse) :
    (onSubmit initialModalState data outcome).calls =
      [ApiCall.mk "POST" "/user/auth/twitter/authenticate/null"
        (ApiBody.jsonFields (credentialsJsonFields
          { username := data.username, password := data.password,
            two_factor_token := jsOrUndefined data.twoFactorToken }))] ∧
    ((onSubmit initialModalState data outcome).state.step = Step.success ∨
      (onSubmit initialModalState data outcome).state.step = Step.error) := by
  cases outcome with
  | ok r =>
      by_cases h : r.success <;>
        simp [onSubmit, completeTwitterAuth, serviceResult, initialModalState, jsInterpolate, h]
  | httpError d =>
      simp [onSubmit, completeTwitterAuth, serviceResult, initialModalState, jsInterpolate]
  | transportError =>
      simp [onSubmit, completeTwitterAuth, serviceResult, initialModalState, jsInterpolate]

/-- Claim C3 counterexample: handleSetDefaultAccount with a username absent
from the cache is not a no-op; on a cache holding the default-flagged alice
entry it clears the flag. -/
theorem C3_counterexample :
    handleSetDefaultAccount [aliceAcct] "bob" ≠ [aliceAcct] ∧
    handleSetDefaultAccount [aliceAcct] "bob" = [{ aliceAcct with is_default := false }] := by
  constructor
  · decide
  · rfl

/-- Claim C3 as amended: handleSetDefaultAccount with a username absent from
the cache keeps the set of entries and all their other fields, but sets
every entry's is_default flag to false, so a previously held default flag is
cleared rather than left unchanged. -/
theorem C3_absent_username_clears_defaults (accounts : List TwitterAccount) (username : String)
    (h : ∀ a ∈ accounts, a.username ≠ username) :
    handleSetDefaultAccount accounts username =
      accounts.map (fun a => { a with is_default := false }) := by
  unfold handleSetDefaultAccount
  apply List.map_congr_left
  intro a ha
  have hne : (a.username == username) = false := beq_eq_false_iff_ne.mpr (h a ha)
  rw [hne]

/-- Concrete instantiation of the amended claim C3 at a one-entry cache and
the absent username bob. -/
theorem C3_absent_username_clears_defaults_witness :
    handleSetDefaultAccount [aliceAcct] "bob" =
      [aliceAcct].map (fun a => { a with is_default := false }) :=
  C3_absent_username_clears_defaults [aliceAcct] "bob" (by decide)

/-- Claim C9 counterexample: the complete-link request actually issued goes
to the twitter-named path, not the external-named path of the spec table,
and its body fields are named username and password, not identifier and
secret. -/
theorem C9_counterexample :
    (onSubmit abcState aliceForm ApiOutcome.transportError).calls.map ApiCall.path =
      ["/user/auth/twitter/authenticate/abc123"] ∧
    "/user/auth/twitter/authenticate/abc123" ≠ specCompleteLinkPath "abc123" ∧
    credentialsJsonFields { username := "alice", password := "pw", two_factor_token := none } ≠
      specCredentialBodyFields "alice" "pw" none ∧
    (credentialsJsonFields
        { username := "alice", password := "pw", two_factor_token := none }).map Prod.fst =
      ["username", "password"] := by
  refine ⟨rfl, by decide, by decide, rfl⟩

/-- Claim C9 as amended: every submission sends a POST to
/user/auth/twitter/authenticate/ followed by the stored request id, and its
JSON body has exactly the fields username, password and two_factor_token,
the last present exactly when the form's two-factor value was a non-empty
string; these are the code-level names of the spec's identifier, secret and
second_factor. -/
theorem C9_request_shape (s : ModalState) (rid : String) (data : FormData)
    (outcome : ApiOutcome AuthResponse) (h : s.requestId = some rid) :
    (onSubmit s data outcome).calls =
      [ApiCall.mk "POST" ("/user/auth/twitter/authenticate/" ++ rid)
        (ApiBody.jsonFields (credentialsJsonFields
          { username := data.username, password := data.password,
            two_factor_token := jsOrUndefined data.twoFactorToken }))] ∧
    (credentialsJsonFields
        { username := data.username, password := data.password,
          two_factor_token := jsOrUndefined data.twoFactorToken }).map Prod.fst =
      (match jsOrUndefined data.twoFactorToken with
       | some _ => ["username", "password", "two_factor_token"]
       | none => ["username", "password"]) := by
  constructor
  · cases outcome with
    | ok r =>
        by_cases hs : r.success <;>
          simp [onSubmit, completeTwitterAuth, serviceResult, jsInterpolate, h, hs]
    | httpError d => simp [onSubmit, completeTwitterAuth, serviceResult, jsInterpolate, h]
    | transportError => simp [onSubmit, completeTwitterAuth, serviceResult, jsInterpolate, h]
  · cases htf : jsOrUndefined data.twoFactorToken <;> simp [credentialsJsonFields, htf]

/-- Concrete instantiation of the amended claim C9 at the stored request id
abc123 and the alice form data. -/
theorem C9_request_shape_witness :
    (onSubmit abcState aliceForm ApiOutcome.transportError).calls =
      [ApiCall.mk "POST" ("/user/auth/twitter/authenticate/" ++ "abc123")
        (ApiBody.jsonFields (credentialsJsonFields
          { username := aliceForm.username, password := aliceForm.password,
            two_factor_token := jsOrUndefined aliceForm.twoFactorToken }))] :=
  (C9_request_shape abcState "abc123" aliceForm ApiOutcome.transportError rfl).1

/-- Claim C10 counterexample: when the account fetch resolves with a null
list, hasLinkedTwitterAccount returns the JavaScript null produced by the
short-circuit conjunction, not the boolean false. -/
theorem C10_counterexample :
    hasLinkedTwitterAccount (ApiOutcome.ok none) = JsReturn.jsNull ∧
    hasLinkedTwitterAccount (ApiOutcome.ok none) ≠ JsReturn.jsBool false := by
  refine ⟨rfl, by decide⟩

/-- Claim C10 as amended: hasLinkedTwitterAccount never throws, returning a
plain value on every fetch outcome; it returns true exactly when the fetch
resolves with a non-empty list, returns false when the resolved list is
empty and when the fetch rejects, and returns the JavaScript null, a falsy
value distinct from false, when the resolved list is null. -/
theorem C10_hasLinked (outcome : ApiOutcome (Option (List TwitterAccount))) :
    (hasLinkedTwitterAccount outcome = JsReturn.jsBool true ↔
      ∃ accounts, outcome = ApiOutcome.ok (some accounts) ∧ accounts.length > 0) ∧
    (∀ d, outcome = ApiOutcome.httpError d →
      hasLinkedTwitterAccount outcome = JsReturn.jsBool false) ∧
    (outcome = ApiOutcome.transportError →
      hasLinkedTwitterAccount outcome = JsReturn.jsBool false) ∧
    (∀ accounts, outcome = ApiOutcome.ok (some accounts) → accounts.length = 0 →
      hasLinkedTwitterAccount outcome = JsReturn.jsBool false) ∧
    (outcome = ApiOutcome.ok none → hasLinkedTwitterAccount outcome = JsReturn.jsNull) := by
  cases outcome with
  | ok dat =>
      cases dat with
      | none => simp [hasLinkedTwitterAccount, getTwitterAccounts, serviceResult]
      | some accounts =>
          by_cases h : accounts.length > 0 <;>
            simp_all [hasLinkedTwitterAccount, getTwitterAccounts, serviceResult]
  | httpError d => simp [hasLinkedTwitterAccount, getTwitterAccounts, serviceResult]
  | transportError => simp [hasLinkedTwitterAccount, getTwitterAccounts, serviceResult]

/-- Concrete instantiation of the amended claim C10 at a rejected fetch. -/
theorem C10_hasLinked_witness :
    hasLinkedTwitterAccount ApiOutcome.transportError = JsReturn.jsBool false :=
  (C10_hasLinked ApiOutcome.transportError).2.2.1 rfl

/-- Claim C6: checkStatus queries the status endpoint with the stored
request id; on a completed status it clears the polling interval, moves the
flow to success and emits the result; on a failed status it clears the
interval and moves to error with the returned message or the generic one;
on any other status the component state and the interval are unchanged. -/
theorem C6_checkStatus_transitions (s : ModalState) (polling : Bool) (resp : StatusResponse) :
    (checkStatus s polling (ApiOutcome.ok resp)).calls =
      [ApiCall.mk "GET" ("/user/auth/twitter/status/" ++ jsInterpolate s.requestId) ApiBody.empty] ∧
    (resp.status = "completed" →
      (checkStatus s polling (ApiOutcome.ok resp)).pollingActive = false ∧
      (checkStatus s polling (ApiOutcome.ok resp)).state.step = Step.success ∧
      (checkStatus s polling (ApiOutcome.ok resp)).emitted = some resp) ∧
    (resp.status = "failed" →
      (checkStatus s polling (ApiOutcome.ok resp)).pollingActive = false ∧
      (checkStatus s polling (ApiOutcome.ok resp)).state.step = Step.error ∧
      (checkStatus s polling (ApiOutcome.ok resp)).state.error =
        some (jsOrString resp.error "Authentication failed")) ∧
    (resp.status ≠ "completed" → resp.status ≠ "failed" →
      (checkStatus s polling (ApiOutcome.ok resp)).state = s ∧
      (checkStatus s polling (ApiOutcome.ok resp)).pollingActive = polling) := by
  refine ⟨?_, ?_, ?_, ?_⟩
  · simp only [checkStatus, checkTwitterAuthStatus, serviceResult]
    split_ifs <;> rfl
  · intro h
    simp [checkStatus, checkTwitterAuthStatus, serviceResult, h]
  · intro h
    simp [checkStatus, checkTwitterAuthStatus, serviceResult, h]
  · intro h1 h2
    simp [checkStatus, checkTwitterAuthStatus, serviceResult, h1, h2]

/-- Concrete instantiation of claim C6 at the completed and pending
statuses. -/
theorem C6_checkStatus_transitions_witness :
    (checkStatus abcState true (ApiOutcome.ok { status := "completed", error := none })).state.step =
      Step.success ∧
    (checkStatus abcState true (ApiOutcome.ok { status := "pending", error := none })).state =
      abcState ∧
    (checkStatus abcState true (ApiOutcome.ok { status := "pending", error := none })).pollingActive =
      true :=
  ⟨((C6_checkStatus_transitions abcState true { status := "completed", error := none }).2.1 rfl).2.1,
   ((C6_checkStatus_transitions abcState true { status := "pending", error := none }).2.2.2
      (by decide) (by decide)).1,
   ((C6_checkStatus_transitions abcState true { status := "pending", error := none }).2.2.2
      (by decide) (by decide)).2⟩

/-- Claim C4: once the removal is confirmed, handleRemoveTwitterAccount
always issues the DELETE call for the username; the entry leaves the local
cache exactly when that call resolves, and on any rejection the cache is
unchanged and still contains the entry. -/
theorem C4_remove_remote_first (accounts : List TwitterAccount) (username : String)
    (outcome : ApiOutcome Unit)
    (hmem : username ∈ accounts.map TwitterAccount.username) :
    (handleRemoveTwitterAccount true accounts username outcome).calls =
      [ApiCall.mk "DELETE" ("/user/accounts/" ++ username) ApiBody.empty] ∧
    (outcome = ApiOutcome.ok () →
      username ∉
        (handleRemoveTwitterAccount true accounts username outcome).accounts.map
          TwitterAccount.username) ∧
    (outcome ≠ ApiOutcome.ok () →
      (handleRemoveTwitterAccount true accounts username outcome).accounts = accounts ∧
      username ∈
        (handleRemoveTwitterAccount true accounts username outcome).accounts.map
          TwitterAccount.username) := by
  cases outcome with
  | ok u =>
      refine ⟨rfl, ?_, ?_⟩
      · intro _ hin
        rw [List.mem_map] at hin
        obtain ⟨a, ha, hu⟩ := hin
        simp only [handleRemoveTwitterAccount, removeTwitterAccount, serviceResult,
          if_true, List.mem_filter] at ha
        have : (a.username != username) = true := ha.2
        simp [bne_iff_ne] at this
        exact this hu
      · intro hne
        exact absurd rfl hne
  | httpError d =>
      refine ⟨rfl, ?_, ?_⟩
      · intro h
        simp at h
      · intro _
        exact ⟨rfl, hmem⟩
  | transportError =>
      refine ⟨rfl, ?_, ?_⟩
      · intro h
        simp at h
      · intro _
        exact ⟨rfl, hmem⟩

/-- Concrete instantiation of claim C4: the rejected DELETE leaves the cache
holding alice, and the resolved DELETE removes her. -/
theorem C4_remove_remote_first_witness :
    (handleRemoveTwitterAccount true [aliceAcct] "alice" ApiOutcome.transportError).accounts =
      [aliceAcct] ∧
    "alice" ∉
      (handleRemoveTwitterAccount true [aliceAcct] "alice" (ApiOutcome.ok ())).accounts.map
        TwitterAccount.username :=
  ⟨((C4_remove_remote_first [aliceAcct] "alice" ApiOutcome.transportError (by decide)).2.2
      (by decide)).1,
   (C4_remove_remote_first [aliceAcct] "alice" (ApiOutcome.ok ()) (by decide)).2.1 rfl⟩

/-- Claim C7: every failure of startAuth or onSubmit is caught and mapped to
the error state; the service-reported message, whether the error field of a
resolved unsuccessful response or the detail field of a non-2xx response, is
surfaced verbatim when it is a non-empty string, and a per-operation
fallback message is used otherwise; the onSuccess callback is not invoked,
so the linked-account cache is untouched; and both handlers are total
functions of the outcome, so no exception reaches the presentation layer. -/
theorem C7_failure_mapping :
    (∀ (s : ModalState) (d : String), d ≠ "" →
      (startAuth s (ApiOutcome.httpError (some d))).state.step = Step.error ∧
      (startAuth s (ApiOutcome.httpError (some d))).state.error = some d) ∧
    (∀ (s : ModalState) (o : ApiOutcome StartAuthResponse),
      o = ApiOutcome.httpError none ∨ o = ApiOutcome.transportError ∨
        o = ApiOutcome.httpError (some "") →
      (startAuth s o).state.step = Step.error ∧
      (startAuth s o).state.error = some "Failed to start Twitter authentication") ∧
    (∀ (s : ModalState) (data : FormData) (r : AuthResponse) (m : String),
      r.success = false → r.error = some m → m ≠ "" →
      (onSubmit s data (ApiOutcome.ok r)).state.step = Step.error ∧
      (onSubmit s data (ApiOutcome.ok r)).state.error = some m ∧
      (onSubmit s data (ApiOutcome.ok r)).emitted = none) ∧
    (∀ (s : ModalState) (data : FormData) (r : AuthResponse),
      r.success = false → (r.error = none ∨ r.error = some "") →
      (onSubmit s data (ApiOutcome.ok r)).state.step = Step.error ∧
      (onSubmit s data (ApiOutcome.ok r)).state.error = some "Authentication failed" ∧
      (onSubmit s data (ApiOutcome.ok r)).emitted = none) ∧
    (∀ (s : ModalState) (data : FormData) (d : String), d ≠ "" →
      (onSubmit s data (ApiOutcome.httpError (some d))).state.step = Step.error ∧
      (onSubmit s data (ApiOutcome.httpError (some d))).state.error = some d ∧
      (onSubmit s data (ApiOutcome.httpError (some d))).emitted = none) ∧
    (∀ (s : ModalState) (data : FormData) (o : ApiOutcome AuthResponse),
      o = ApiOutcome.httpError none ∨ o = ApiOutcome.transportError ∨
        o = ApiOutcome.httpError (some "") →
      (onSubmit s data o).state.step = Step.error ∧
      (onSubmit s data o).state.error = some "Failed to complete Twitter authentication" ∧
      (onSubmit s data o).emitted = none) := by
  refine ⟨?_, ?_, ?_, ?_, ?_, ?_⟩
  · intro s d hd
    simp [startAuth, startTwitterAuth, serviceResult, jsOrString, hd]
  · rintro s o (rfl | rfl | rfl) <;>
      simp [startAuth, startTwitterAuth, serviceResult, jsOrString]
  · intro s data r m hs he hm
    simp [onSubmit, completeTwitterAuth, serviceResult, jsOrString, hs, he, hm]
  · rintro s data r hs (he | he) <;>
      simp [onSubmit, completeTwitterAuth, serviceResult, jsOrString, hs, he]
  · intro s data d hd
    simp [onSubmit, completeTwitterAuth, serviceResult, jsOrString, hd]
  · rintro s data o (rfl | rfl | rfl) <;>
      simp [onSubmit, completeTwitterAuth, serviceResult, jsOrString]

/-- Concrete instantiation of claim C7 at a detail-carrying start failure,
the bad-credentials submit rejection of the spec scenario, and a transport
failure during submit. -/
theorem C7_failure_mapping_witness :
    (startAuth abcState (ApiOutcome.httpError (some "boom"))).state.error = some "boom" ∧
    (onSubmit abcState aliceForm (ApiOutcome.ok badCredentialsResponse)).state.error =
      some "bad credentials" ∧
    (onSubmit abcState aliceForm ApiOutcome.transportError).state.error =
      some "Failed to complete Twitter authentication" :=
  ⟨(C7_failure_mapping.1 abcState "boom" (by decide)).2,
   ((C7_failure_mapping.2.2.1 abcState aliceForm badCredentialsResponse
       "bad credentials" rfl rfl (by decide)).2.1),
   ((C7_failure_mapping.2.2.2.2.2 abcState aliceForm ApiOutcome.transportError
       (Or.inr (Or.inl rfl))).2.1)⟩

/-- Number of default flags after handleSetDefaultAccount: exactly the
number of cached entries carrying the target username. -/
theorem defaultCount_handleSetDefaultAccount (accounts : List TwitterAccount) (u : String) :
    defaultCount (handleSetDefaultAccount accounts u) =
      accounts.countP (fun a => a.username == u) := by
  unfold defaultCount handleSetDefaultAccount
  rw [List.countP_map]
  rfl

/-- A cache whose usernames are distinct holds at most one entry with any
given username. -/
theorem countP_username_le_one (u : String) (accounts : List TwitterAccount)
    (h : (accounts.map TwitterAccount.username).Nodup) :
    accounts.countP (fun a => a.username == u) ≤ 1 := by
  induction accounts with
  | nil => simp
  | cons a as ih =>
      rw [List.map_cons, List.nodup_cons] at h
      rw [List.countP_cons]
      by_cases hb : (a.username == u) = true
      · have hu : a.username = u := beq_iff_eq.mp hb
        have hz : as.countP (fun x => x.username == u) = 0 := by
          rw [List.countP_eq_zero]
          intro x hx
          have hxne : x.username ≠ a.username := by
            intro he
            exact h.1 (he ▸ List.mem_map_of_mem TwitterAccount.username hx)
          simp [hu ▸ hxne]
        simp [hb, hz]
      · have hb' : (a.username == u) = false := by
          simpa using hb
        have := ih h.2
        simp [hb']
        omega

/-- The fallback branch of the cache update preserves the at-most-one
default invariant: the appended entry is default exactly when the cache was
empty. -/
theorem atMostOneDefault_fallback (response : Option AuthResponse)
    (accounts : List TwitterAccount) (h : atMostOneDefault accounts) :
    atMostOneDefault (handleTwitterSuccessFallback response accounts) := by
  cases response with
  | none => exact h
  | some r =>
      cases hr : r.username with
      | none => simpa [handleTwitterSuccessFallback, hr] using h
      | some u =>
          by_cases hu : u = ""
          · simpa [handleTwitterSuccessFallback, hr, hu] using h
          · unfold atMostOneDefault defaultCount at h ⊢
            simp only [handleTwitterSuccessFallback, hr, hu, if_false]
            rw [List.countP_append]
            cases accounts with
            | nil => simp
            | cons b bs =>
                rw [List.countP_cons] at h
                simp only [List.countP_cons, List.countP_nil, List.length_cons]
                have hlen : ((bs.length + 1 : Nat) == 0) = false := by simp
                simp only [hlen]
                simp only [if_false, Nat.add_zero, Nat.zero_add]
                simpa using h

/-- When the fresh fetch fails or comes back null or empty, the cache update
runs its fallback branch. -/
theorem handleTwitterSuccess_of_fetchFails (fetch : ApiOutcome (Option (List TwitterAccount)))
    (response : Option AuthResponse) (accounts : List TwitterAccount)
    (h : fetchFailsOrEmpty fetch = true) :
    handleTwitterSuccess fetch response accounts =
      handleTwitterSuccessFallback response accounts := by
  cases fetch with
  | ok dat =>
      cases dat with
      | none => rfl
      | some lst =>
          have hlen : lst.length = 0 := by
            simpa [fetchFailsOrEmpty] using h
          simp [handleTwitterSuccess, getTwitterAccounts, serviceResult, hlen]
  | httpError d => rfl
  | transportError => rfl

/-- Claim C5: the at-most-one-default invariant is preserved by every cache
operation: by the link-success update along its synthesizing branch, by
confirmed or declined removal whatever the remote outcome, and by
handleSetDefaultAccount on a cache with distinct usernames; moreover on any
two-account cache with distinct usernames, whatever the prior default flags,
setting the default to the second account leaves exactly one default. -/
theorem C5_default_invariant :
    (∀ (accounts : List TwitterAccount) (username : String),
      (accounts.map TwitterAccount.username).Nodup →
      atMostOneDefault (handleSetDefaultAccount accounts username)) ∧
    (∀ (confirmed : Bool) (accounts : List TwitterAccount) (username : String)
      (outcome : ApiOutcome Unit),
      atMostOneDefault accounts →
      atMostOneDefault (handleRemoveTwitterAccount confirmed accounts username outcome).accounts) ∧
    (∀ (fetch : ApiOutcome (Option (List TwitterAccount))) (response : Option AuthResponse)
      (accounts : List TwitterAccount),
      fetchFailsOrEmpty fetch = true → atMostOneDefault accounts →
      atMostOneDefault (handleTwitterSuccess fetch response accounts)) ∧
    (∀ a b : TwitterAccount, a.username ≠ b.username →
      defaultCount (handleSetDefaultAccount [a, b] b.username) = 1) := by
  refine ⟨?_, ?_, ?_, ?_⟩
  · intro accounts username h
    unfold atMostOneDefault
    rw [defaultCount_handleSetDefaultAccount]
    exact countP_username_le_one username accounts h
  · intro confirmed accounts username outcome h
    cases confirmed with
    | false => exact h
    | true =>
        cases outcome with
        | ok u =>
            unfold atMostOneDefault defaultCount at h ⊢
            simp only [handleRemoveTwitterAccount, removeTwitterAccount, serviceResult, if_true]
            exact le_trans
              ((List.filter_sublist accounts).countP_le (fun a => a.is_default)) h
        | httpError d => exact h
        | transportError => exact h
  · intro fetch response accounts hf h
    rw [handleTwitterSuccess_of_fetchFails fetch response accounts hf]
    exact atMostOneDefault_fallback response accounts h
  · intro a b hne
    rw [defaultCount_handleSetDefaultAccount]
    have ha : (a.username == b.username) = false := beq_eq_false_iff_ne.mpr hne
    simp [List.countP_cons, ha]

/-- Concrete instantiation of claim C5 at one- and two-account caches. -/
theorem C5_default_invariant_witness :
    atMostOneDefault (handleSetDefaultAccount [aliceAcct, carolAcct] "carol") ∧
    atMostOneDefault
      (handleRemoveTwitterAccount true [aliceAcct] "alice" (ApiOutcome.ok ())).accounts ∧
    atMostOneDefault
      (handleTwitterSuccess ApiOutcome.transportError (some aliceFlatResponse) []) ∧
    defaultCount (handleSetDefaultAccount [aliceAcct, carolAcct] "carol") = 1 :=
  ⟨C5_default_invariant.1 [aliceAcct, carolAcct] "carol" (by decide),
   C5_default_invariant.2.1 true [aliceAcct] "alice" (ApiOutcome.ok ()) (by decide),
   C5_default_invariant.2.2.1 ApiOutcome.transportError (some aliceFlatResponse) [] rfl
     (by decide),
   C5_default_invariant.2.2.2 aliceAcct carolAcct (by decide)⟩

/-- Claim C2 counterexample: with the payload shaped as the spec's
LinkResult, where the account data sits in a nested account object, the flow
does reach success and emit the result, but the cache update synthesizes
nothing because the code reads the top-level username field, so starting
from an empty cache the cache stays empty instead of holding the alice
entry. -/
theorem C2_counterexample :
    (onSubmit abcState aliceForm (ApiOutcome.ok aliceNestedResponse)).state.step = Step.success ∧
    (onSubmit abcState aliceForm (ApiOutcome.ok aliceNestedResponse)).emitted =
      some aliceNestedResponse ∧
    handleTwitterSuccess ApiOutcome.transportError
      (onSubmit abcState aliceForm (ApiOutcome.ok aliceNestedResponse)).emitted [] = [] := by
  exact ⟨rfl, rfl, rfl⟩

/-- Claim C2 as amended: with start resolved as request id abc123 and submit
resolving successfully with the account data in the top-level fields the
code reads, the flow reaches success, emits the result and schedules the
auto-close; and whenever the fresh account fetch fails or comes back null or
empty, the cache afterward holds exactly one entry, username alice with the
default flag set, synthesized from the payload. -/
theorem C2_link_success_updates_cache (fetch : ApiOutcome (Option (List TwitterAccount)))
    (h : fetchFailsOrEmpty fetch = true) :
    abcState.step = Step.credentials ∧
    abcState.requestId = some "abc123" ∧
    (onSubmit abcState aliceForm (ApiOutcome.ok aliceFlatResponse)).state.step = Step.success ∧
    (onSubmit abcState aliceForm (ApiOutcome.ok aliceFlatResponse)).emitted =
      some aliceFlatResponse ∧
    (onSubmit abcState aliceForm (ApiOutcome.ok aliceFlatResponse)).autoCloseScheduled = true ∧
    handleTwitterSuccess fetch
      (onSubmit abcState aliceForm (ApiOutcome.ok aliceFlatResponse)).emitted [] =
      [aliceAcct] := by
  refine ⟨rfl, rfl, rfl, rfl, rfl, ?_⟩
  have he : (onSubmit abcState aliceForm (ApiOutcome.ok aliceFlatResponse)).emitted =
      some aliceFlatResponse := rfl
  rw [he, handleTwitterSuccess_of_fetchFails fetch (some aliceFlatResponse) [] h]
  rfl

/-- Concrete instantiation of the amended claim C2 at a failed fetch. -/
theorem C2_link_success_updates_cache_witness :
    handleTwitterSuccess ApiOutcome.transportError
      (onSubmit abcState aliceForm (ApiOutcome.ok aliceFlatResponse)).emitted [] =
      [aliceAcct] :=
  (C2_link_success_updates_cache ApiOutcome.transportError rfl).2.2.2.2.2

/-- A closed idle modal session, with the modal closed and no interval
installed, is a fixpoint of every event: nothing runs and no call is
issued. -/
theorem sysStep_of_closed (s : SysState) (h1 : s.isOpen = false)
    (h2 : s.pollingActive = false) (e : Event) : sysStep s e = (s, []) := by
  cases s with
  | mk modal isOpen pollingActive autoClosePending =>
      subst h1
      subst h2
      cases e <;> simp [sysStep]

/-- Runs from a closed idle session stay there and issue no calls. -/
theorem sysRun_of_closed (s : SysState) (h1 : s.isOpen = false)
    (h2 : s.pollingActive = false) (es : List Event) : sysRun s es = (s, []) := by
  induction es with
  | nil => rfl
  | cons e es ih => simp [sysRun, sysStep_of_closed s h1 h2 e, ih]

/-- Runs decompose over list append: the tail run starts from the state the
head run reached, and the calls concatenate. -/
theorem sysRun_append (s : SysState) (as bs : List Event) :
    sysRun s (as ++ bs) =
      ((sysRun (sysRun s as).1 bs).1, (sysRun s as).2 ++ (sysRun (sysRun s as).1 bs).2) := by
  induction as generalizing s with
  | nil => simp [sysRun]
  | cons e as ih =>
      have h := ih ((sysStep s e).1)
      simp only [List.cons_append, sysRun, List.append_eq]
      rw [h]
      simp [List.append_assoc]

/-- Whatever the outcome, startAuth issues exactly the begin-link POST. -/
theorem startAuth_calls (s : ModalState) (o : ApiOutcome StartAuthResponse) :
    (startAuth s o).calls = [ApiCall.mk "POST" "/user/auth/twitter/request" ApiBody.empty] := by
  cases o with
  | ok r => rfl
  | httpError d => rfl
  | transportError => rfl

/-- State reached by a fresh session after the start call resolves and the
modal is immediately closed: the modal is closed, no interval is installed
and no auto-close is pending. -/
theorem sysRun_start_cancel (o : ApiOutcome StartAuthResponse) :
    sysRun initialSysState [Event.startResolved o, Event.cancelClose] =
      ({ modal := (startAuth initialModalState o).state, isOpen := false,
         pollingActive := false, autoClosePending := false },
       [ApiCall.mk "POST" "/user/auth/twitter/request" ApiBody.empty]) := by
  simp [sysRun, sysStep, startAuth_calls, initialSysState, initialModalState]

set_option maxRecDepth 8000 in
/-- Claim C8: in every session consisting of start resolving, in whatever
way, followed immediately by cancellation, the only call ever issued is the
begin-link POST, so no authenticate or status call is issued at any point;
after the cancellation no event of any further trace issues any call at all,
and every state reached afterwards has no polling interval installed and no
auto-close timeout pending. -/
theorem C8_start_cancel_quiescent (o : ApiOutcome StartAuthResponse) (es : List Event) :
    (sysRun initialSysState ([Event.startResolved o, Event.cancelClose] ++ es)).2.filter
        submitOrPollCall = [] ∧
    (sysRun (sysRun initialSysState [Event.startResolved o, Event.cancelClose]).1 es).2 = [] ∧
    (sysRun initialSysState
        ([Event.startResolved o, Event.cancelClose] ++ es)).1.pollingActive = false ∧
    (sysRun initialSysState
        ([Event.startResolved o, Event.cancelClose] ++ es)).1.autoClosePending = false := by
  have hpre := sysRun_start_cancel o
  have hclosed := sysRun_of_closed
    ({ modal := (startAuth initialModalState o).state, isOpen := false,
       pollingActive := false, autoClosePending := false }) rfl rfl es
  rw [sysRun_append, hpre]
  simp [hclosed]
  simp only [submitOrPollCall, strStartsWith]
  decide

end XEngage
